import Mathlib

/-!
# Verification of the bounded vision-agent control loop (`scripts/agent_scrape.py`)

This file gives a shallow embedding, in Lean 4, of the `WebAgent` class of
`scripts/agent_scrape.py`: its data model (parsed-JSON values, page states,
telemetry logs, action records, run results) and its operations
(`plan_extraction`, `decide_action`, `execute_action`, `capture_state`,
`final_extraction`, the event handlers installed by `_setup_logging`, and the
main `run` loop).  External collaborators — the browser session and the
language-model endpoint — are modelled as environment-supplied oracles: every
fallible external call appears as an `Except String _` value chosen by the
environment, mirroring the fact that the Python code wraps those calls in
`try`/`except` (or does not, which is exactly what several theorems below are
about).  Theorems then settle the spec's claims about the loop.
-/

namespace AgentScrape

/-- Parsed JSON values, as produced by Python's `json.loads`: the agent treats
every model reply as such a dynamically-typed value. -/
inductive Json where
  | str (s : String)
  | num (q : ℚ)
  | boolean (b : Bool)
  | null
  | arr (xs : List Json)
  | obj (fields : List (String × Json))
deriving Repr

/-- Python `d[key]` on a parsed JSON value: defined (as `some`) only when the
value is a dict that has the key; every other case raises (`TypeError` on
non-dicts, `KeyError` on a missing key), which we model as `none`.
`json.loads` never yields duplicate keys, so first-match lookup is exact. -/
def pyLookup (j : Json) (key : String) : Option Json :=
  match j with
  | .obj fields => lookupField fields key
  | _ => none
where
  lookupField : List (String × Json) → String → Option Json
    | [], _ => none
    | (k, v) :: rest, key => if k = key then some v else lookupField rest key

/-- Python `d.get(key, dflt)` on a dict value. -/
def pyGetD (j : Json) (key : String) (dflt : Json) : Json :=
  (pyLookup j key).getD dflt

/-- Whether `needle` occurs as a contiguous substring of the character list. -/
def charsContain (needle : List Char) : List Char → Bool
  | [] => needle.isEmpty
  | c :: rest => needle.isPrefixOf (c :: rest) || charsContain needle rest

/-- Python `key in value` for a parsed JSON value: key lookup on dicts,
substring test on strings, element equality on lists; on numbers, booleans and
`None` it raises `TypeError` (modelled as `none`). -/
def pyContains (key : String) : Json → Option Bool
  | .obj fields => some (fields.any (fun p => p.1 = key))
  | .str s => some (charsContain key.toList s.toList)
  | .arr xs => some (xs.any (fun x => jsonIsStr x key))
  | _ => none
where
  /-- Python `x == s` for a JSON value against a string literal. -/
  jsonIsStr : Json → String → Bool
    | .str t, s => t = s
    | _, _ => false

/-- Python `x == s` comparison of a JSON value with a string literal, as used
by `action['type'] == 'DONE'` and the dispatch in `execute_action`. -/
def jsonIsStr (j : Json) (s : String) : Bool :=
  pyContains.jsonIsStr j s

/-- `plan_extraction` (STRATEGIC LEVEL): one model call; on any exception
(request error or unparseable reply) it returns the hard-coded default goal
built from the task text.  The model reply is the environment-chosen outcome
of `json.loads(response.json()['response'])`. -/
def plan_extraction (task : String) (reply : Except String Json) : Json :=
  match reply with
  | .ok goal => goal
  | .error _ =>
      Json.obj [
        ("primary_goal", Json.str task),
        ("data_fields", Json.arr [Json.str "main content"]),
        ("success_criteria", Json.str "data extracted"),
        ("expected_obstacles", Json.arr [Json.str "cookie banner"]),
        ("priority_actions", Json.arr [Json.str "dismiss popups", Json.str "extract data"])]

/-- The message of the `TypeError` raised by `'type' not in decision` when the
parsed decision is a number, boolean or `None` (the exact Python wording is
irrelevant to every claim; only that the except-branch fires matters). -/
def typeErrorText : String := "argument of type is not iterable"

/-- `decide_action` (TACTICAL LEVEL): one vision-model call inside a single
`try`.  On exception (request error, unparseable JSON, or the `TypeError` the
containment test raises on scalar replies) it returns the EXTRACT fallback
with confidence 0.3; if the parsed reply does not contain `'type'` it returns
the EXTRACT fallback with confidence 0.5 and reasoning `"fallback"`;
otherwise the parsed reply is returned verbatim.  The prompt construction
(recent telemetry windows, history excerpts) only influences the model reply,
which is already the oracle, so it is not reproduced here. -/
def decide_action (reply : Except String Json) : Json :=
  match reply with
  | .error e =>
      Json.obj [
        ("type", Json.str "EXTRACT"),
        ("reasoning", Json.str ("Error in decision: " ++ e)),
        ("confidence", Json.num (3 / 10))]
  | .ok decision =>
      match pyContains "type" decision with
      | none =>
          Json.obj [
            ("type", Json.str "EXTRACT"),
            ("reasoning", Json.str ("Error in decision: " ++ typeErrorText)),
            ("confidence", Json.num (3 / 10))]
      | some false =>
          Json.obj [
            ("type", Json.str "EXTRACT"),
            ("reasoning", Json.str "fallback"),
            ("confidence", Json.num (1 / 2))]
      | some true => decision

/-- One candidate interactive element as returned by the element-enumeration
script of `capture_state` (index, tag, text, type, id, class, visibility,
rounded position). -/
structure ElementInfo where
  index : Nat
  tag : String
  text : String
  ty : String
  id : String
  cls : String
  visible : Bool
  x : Int
  y : Int
deriving Repr

/-- The browser-capability view of the live page at one observation point:
the outcome of each `await` the observer performs (`page.screenshot` —
already base64-encoded, `page.evaluate` for elements and for visible text,
`page.title`) plus the non-fallible `page.url`. -/
structure PageHandle where
  screenshotResult : Except String String
  elementsResult : Except String (List ElementInfo)
  textResult : Except String String
  titleResult : Except String String
  url : String

/-- The `PageState` dict built by `capture_state`. -/
structure PageState where
  screenshot : String
  elements : List ElementInfo
  text : String
  url : String
  title : String
  step : Nat
deriving Repr

/-- `capture_state`: screenshot first (appended to `self.screenshots` as soon
as it is taken), then element enumeration, visible text and title.  The body
contains no `try`/`except`, so the failure of ANY of these awaits propagates
to the caller; the function returns the updated screenshot archive together
with either the `PageState` or the propagated error. -/
def capture_state (p : PageHandle) (step : Nat) (shots : List String) :
    List String × Except String PageState :=
  match p.screenshotResult with
  | .error e => (shots, .error e)
  | .ok shot =>
    match p.elementsResult with
    | .error e => (shots ++ [shot], .error e)
    | .ok elements =>
      match p.textResult with
      | .error e => (shots ++ [shot], .error e)
      | .ok text =>
        match p.titleResult with
        | .error e => (shots ++ [shot], .error e)
        | .ok title =>
            (shots ++ [shot],
             .ok { screenshot := shot, elements := elements, text := text,
                   url := p.url, title := title, step := step })

/-- The result dict of one executed action (`execute_action`'s return value):
one constructor per `return` statement of the Python function. -/
inductive ActionResult where
  | clicked (element : Json)
  | scrolled (direction : Json)
  | extractedR (items : Nat)
  | waited (duration : Nat)
  | completed
  | unknown (action : Json)
  | errorR (msg : String)
deriving Repr

/-- The in-page click script of the CLICK branch: it re-queries the clickable
elements (filtered by `offsetParent !== null` only — a narrower filter than
the observer's visibility test), indexes into them and returns whether an
element existed there (`true` after `el.click()`, `false` otherwise).  Its
return value is DISCARDED by the Python caller.  Indexing is defined for
integral non-negative indices within range. -/
def clickScript (visible : List ElementInfo) (idx : ℚ) : Bool :=
  decide (idx.den = 1 ∧ 0 ≤ idx.num ∧ idx.num.toNat < visible.length)

/-- Models `len(str(data))` recorded in the EXTRACT result.  The exact
character count of the Python `str` rendering is not reproduced — no claim
inspects this number — but the function is total and structural. -/
def reprLen : Json → Nat
  | .str s => s.length + 2
  | .num _ => 1
  | .boolean _ => 4
  | .null => 4
  | .arr xs => 2 + listLen xs
  | .obj fields => 2 + fieldsLen fields
where
  listLen : List Json → Nat
    | [] => 0
    | x :: rest => reprLen x + 2 + listLen rest
  fieldsLen : List (String × Json) → Nat
    | [] => 0
    | (k, v) :: rest => k.length + 4 + reprLen v + fieldsLen rest

/-- The page-side behaviour available to `execute_action` at one step:
whether `page.evaluate` calls succeed (and the error text if not), the
currently clickable elements seen by the click script, and the value the
structural EXTRACT query returns. -/
structure ExecEnv where
  evalOk : Bool
  evalErr : String
  visible : List ElementInfo
  extractData : Json

/-- `execute_action`: dispatch on `action['type']` inside one `try` that
converts any exception into an `{'status': 'error', ...}` record, so the
function is total.  CLICK runs the click script and ignores its boolean;
the result is `{'status': 'clicked', 'element': idx}` whether or not an
element existed at `idx`.  EXTRACT appends the structural query result to
`self.extracted_data` (returned as the second component).  The scroll offset
(`800` for `'down'`, `-800` otherwise) only moves the page and is not
reproduced. -/
def execute_action (ex : ExecEnv) (action : Json) (extracted : List Json) :
    ActionResult × List Json :=
  match pyLookup action "type" with
  | none => (.errorR typeErrorText, extracted)
  | some ty =>
    if jsonIsStr ty "CLICK" then
      if ex.evalOk then
        match pyGetD action "element_index" (Json.num 0) with
        | Json.num q =>
            let _found := clickScript ex.visible q
            (.clicked (Json.num q), extracted)
        | _ => (.errorR ex.evalErr, extracted)
      else (.errorR ex.evalErr, extracted)
    else if jsonIsStr ty "SCROLL" then
      if ex.evalOk then
        (.scrolled (pyGetD action "scroll_direction" (Json.str "down")), extracted)
      else (.errorR ex.evalErr, extracted)
    else if jsonIsStr ty "EXTRACT" then
      if ex.evalOk then
        (.extractedR (reprLen ex.extractData), extracted ++ [ex.extractData])
      else (.errorR ex.evalErr, extracted)
    else if jsonIsStr ty "WAIT" then (.waited 2, extracted)
    else if jsonIsStr ty "DONE" then (.completed, extracted)
    else (.unknown ty, extracted)

/-- `final_extraction`: captures a final page state (whose failure propagates
— the capture is OUTSIDE the `try`), then one model call; on model failure it
returns the accumulated extracted fragments verbatim as `primary_data`, with
`extraction_method: 'fallback'`, confidence 0.5 and the error text.  Returns
the updated screenshot archive alongside the outcome. -/
def final_extraction (p : PageHandle) (step : Nat) (shots : List String)
    (extracted : List Json) (reply : Except String Json) (today : String) :
    List String × Except String Json :=
  match capture_state p step shots with
  | (shots', .error e) => (shots', .error e)
  | (shots', .ok state) =>
      match reply with
      | .ok finalData => (shots', .ok finalData)
      | .error e =>
          (shots',
           .ok (Json.obj [
             ("primary_data", Json.arr extracted),
             ("metadata", Json.obj [
               ("source_url", Json.str state.url),
               ("extraction_date", Json.str today),
               ("extraction_method", Json.str "fallback")]),
             ("confidence", Json.num (1 / 2)),
             ("error", Json.str e)]))

/-- One page event delivered to the listeners installed by `_setup_logging`
(`request`, `response`, `requestfailed`, `console`, `pageerror`), carrying the
payload each handler reads.  The timestamp is the `time.time()` value at
delivery. -/
inductive PageEvent where
  | request (url method resource_type : String) (timestamp : ℚ)
  | response (url : String) (status : Nat) (ok : Bool) (timestamp : ℚ)
  | requestfailed (url : String) (errText : Option String) (timestamp : ℚ)
  | console (ty text : String) (timestamp : ℚ)
  | pageerror (text : String) (timestamp : ℚ)
deriving Repr

/-- An entry of `self.network_logs` (one constructor per handler that appends
to it). -/
inductive NetLogEntry where
  | request (url method resource_type : String) (timestamp : ℚ)
  | response (url : String) (status : Nat) (ok : Bool) (timestamp : ℚ)
  | failed (url errText : String) (timestamp : ℚ)
deriving Repr

/-- An entry of `self.console_logs`: type, text truncated to 200 characters,
timestamp. -/
structure ConsoleLogEntry where
  ty : String
  text : String
  timestamp : ℚ
deriving Repr

/-- The two run-scoped telemetry logs. -/
structure Logs where
  network : List NetLogEntry
  console : List ConsoleLogEntry
deriving Repr

/-- The network-log entries one event handler appends for one event: a
singleton for the three network listeners, empty for the console ones. -/
def netEntriesOf : PageEvent → List NetLogEntry
  | .request u m rt ts => [.request u m rt ts]
  | .response u s ok ts => [.response u s ok ts]
  | .requestfailed u e ts => [.failed u (e.getD "unknown") ts]
  | .console _ _ _ => []
  | .pageerror _ _ => []

/-- The console-log entries one event handler appends for one event
(truncating the text to 200 characters, and tagging page errors as
`'page_error'`). -/
def consoleEntriesOf : PageEvent → List ConsoleLogEntry
  | .request _ _ _ _ => []
  | .response _ _ _ _ => []
  | .requestfailed _ _ _ => []
  | .console ty text ts => [{ ty := ty, text := text.take 200, timestamp := ts }]
  | .pageerror text ts => [{ ty := "page_error", text := text.take 200, timestamp := ts }]

/-- Delivery of one event to the `_setup_logging` listeners: the matching
handler appends exactly one entry to exactly one of the two logs and touches
nothing else. -/
def handleEvent (logs : Logs) (ev : PageEvent) : Logs :=
  { network := logs.network ++ netEntriesOf ev,
    console := logs.console ++ consoleEntriesOf ev }

/-- Delivery of a sequence of page events, in order. -/
def applyEvents (logs : Logs) (evs : List PageEvent) : Logs :=
  evs.foldl handleEvent logs

/-- Python `l[-n:]`: the tail of at most `n` elements. -/
def pyTail (n : Nat) (l : List α) : List α :=
  l.drop (l.length - n)

/-- One entry of `self.action_history`: step index, the action taken, the
executor's result, and the telemetry counters snapshotted after execution. -/
structure ActionRecord where
  step : Nat
  action : Json
  result : ActionResult
  network_events : Nat
  console_errors : Nat
deriving Repr

/-- The mutable per-run agent state threaded through the loop: `self.step`,
`self.action_history`, the two telemetry logs, `self.extracted_data` and
`self.screenshots`. -/
structure LoopState where
  step : Nat
  history : List ActionRecord
  logs : Logs
  extracted : List Json
  shots : List String

/-- The whole external world of one run, fixed up front: the outcome of every
external interaction `run` performs, indexed by the loop step where needed.
`launchResult` covers playwright startup, browser launch and context/page
creation; `gotoEvents` are the telemetry events fired during navigation and
the stability wait; `execEvents i` those fired while executing step `i`'s
action (delivered before the history record snapshots the log lengths);
`finalEvents` those fired during finalization. -/
structure Env where
  url : String
  task : String
  max_steps : Nat
  launchResult : Except String Unit
  planReply : Except String Json
  gotoResult : Except String Unit
  gotoEvents : List PageEvent
  page : Nat → PageHandle
  selReply : Nat → Except String Json
  exec : Nat → ExecEnv
  execEvents : Nat → List PageEvent
  finalPage : PageHandle
  finalReply : Except String Json
  finalEvents : List PageEvent
  closeResult : Except String Unit
  today : String

/-- Outcome of one iteration of the tactical loop body: an exception that
propagates to `run`'s `except` (with the state at the raise point), a DONE
decision (`break`), or a completed iteration. -/
inductive IterResult where
  | failed (msg : String) (st : LoopState)
  | done (st : LoopState)
  | next (st : LoopState)

/-- One iteration of the `while self.step < self.max_steps` body:
`capture_state` (whose failure propagates), `decide_action` (total), the
status print that subscripts `action['type']` (raising on a non-dict
decision), the DONE check (`break` before anything is appended), then
`execute_action`, the history append, and the step increment.  Telemetry
events fired while the action executes are delivered before the record
snapshots the log lengths, as in the source. -/
def iteration (env : Env) (st : LoopState) : IterResult :=
  match capture_state (env.page st.step) st.step st.shots with
  | (shots', .error e) => .failed e { st with shots := shots' }
  | (shots', .ok _state) =>
    match pyLookup (decide_action (env.selReply st.step)) "type" with
    | none => .failed typeErrorText { st with shots := shots' }
    | some ty =>
      if jsonIsStr ty "DONE" then .done { st with shots := shots' }
      else
        .next { st with
          shots := shots',
          logs := applyEvents st.logs (env.execEvents st.step),
          extracted :=
            (execute_action (env.exec st.step) (decide_action (env.selReply st.step))
              st.extracted).2,
          history := st.history ++ [{
            step := st.step,
            action := decide_action (env.selReply st.step),
            result :=
              (execute_action (env.exec st.step) (decide_action (env.selReply st.step))
                st.extracted).1,
            network_events := (applyEvents st.logs (env.execEvents st.step)).network.length,
            console_errors :=
              ((applyEvents st.logs (env.execEvents st.step)).console.filter
                (fun l => l.ty == "error")).length }],
          step := st.step + 1 }

/-- The tactical loop.  The fuel argument only makes the recursion structural:
`run` passes `env.max_steps`, and since every completed iteration increments
`step` by one, the guard `st.step < env.max_steps` is already false whenever
the fuel runs out, so the fuel never cuts an iteration short. -/
def runLoop (env : Env) : Nat → LoopState → Except (String × LoopState) LoopState
  | 0, st => .ok st
  | fuel + 1, st =>
    if st.step < env.max_steps then
      match iteration env st with
      | .failed e st' => .error (e, st')
      | .done st' => .ok st'
      | .next st' => runLoop env fuel st'
    else .ok st

/-- The value `run` returns: one constructor per `return` dict.  The normal
result carries the goal, final data, step count, full action history, the
last-30 tail of the network log, ALL error-typed console entries, and the
screenshot count; the error result carries only the error text, the step
count and the action history. -/
inductive RunResult where
  | ok (url task : String) (extraction_goal extracted_data : Json)
       (steps_taken : Nat) (action_history : List ActionRecord)
       (network_logs : List NetLogEntry) (console_errors : List ConsoleLogEntry)
       (screenshots : Nat)
  | err (url task errMsg : String) (steps_taken : Nat)
        (action_history : List ActionRecord)

/-- The `steps_taken` field, present in both result shapes. -/
def RunResult.steps_taken : RunResult → Nat
  | .ok _ _ _ _ s _ _ _ _ => s
  | .err _ _ _ s _ => s

/-- The `action_history` field, present in both result shapes. -/
def RunResult.action_history : RunResult → List ActionRecord
  | .ok _ _ _ _ _ h _ _ _ => h
  | .err _ _ _ _ h => h

/-- The `success` field: `True` on the normal return, `False` on the error
return. -/
def RunResult.success : RunResult → Bool
  | .ok _ _ _ _ _ _ _ _ _ => true
  | .err _ _ _ _ _ => false

/-- The `network_logs` key: present (as `some`) only in the normal result. -/
def RunResult.networkField : RunResult → Option (List NetLogEntry)
  | .ok _ _ _ _ _ _ n _ _ => some n
  | .err _ _ _ _ _ => none

/-- The `console_errors` key: present (as `some`) only in the normal result. -/
def RunResult.consoleField : RunResult → Option (List ConsoleLogEntry)
  | .ok _ _ _ _ _ _ _ c _ => some c
  | .err _ _ _ _ _ => none

/-- `WebAgent.run`: launch (failure lands in the outer `except` with step 0
and empty history), `_setup_logging`, one `plan_extraction` call (total),
navigation (failure → outer `except`), the tactical loop, `final_extraction`
(whose state-capture failure → outer `except`), `browser.close()` (failure →
outer `except`), then the normal result dict. -/
def run (env : Env) : RunResult :=
  match env.launchResult with
  | .error e => .err env.url env.task e 0 []
  | .ok _ =>
    match env.gotoResult with
    | .error e => .err env.url env.task e 0 []
    | .ok _ =>
      match runLoop env env.max_steps
          { step := 0, history := [],
            logs := applyEvents { network := [], console := [] } env.gotoEvents,
            extracted := [], shots := [] } with
      | .error (e, st) => .err env.url env.task e st.step st.history
      | .ok st =>
        match final_extraction env.finalPage st.step st.shots st.extracted
            env.finalReply env.today with
        | (_, .error e) => .err env.url env.task e st.step st.history
        | (shots', .ok finalData) =>
          match env.closeResult with
          | .error e => .err env.url env.task e st.step st.history
          | .ok _ =>
            .ok env.url env.task (plan_extraction env.task env.planReply) finalData
              st.step st.history
              (pyTail 30 (applyEvents st.logs env.finalEvents).network)
              ((applyEvents st.logs env.finalEvents).console.filter
                (fun l => l.ty == "error"))
              shots'.length

/-! ## Concrete environments used by the theorems -/

/-- A page on which every observer call succeeds: the screenshot encodes to
`"shot"`, no clickable elements, empty text. -/
def benignPage : PageHandle :=
  { screenshotResult := .ok "shot", elementsResult := .ok [],
    textResult := .ok "", titleResult := .ok "Example Domain",
    url := "https://example.com" }

/-- A page whose screenshot call raises. -/
def badShotPage : PageHandle :=
  { screenshotResult := .error "screenshot failed", elementsResult := .ok [],
    textResult := .ok "", titleResult := .ok "Example Domain",
    url := "https://example.com" }

/-- A page whose screenshot succeeds but whose element-enumeration
`page.evaluate` raises. -/
def badElemsPage : PageHandle :=
  { screenshotResult := .ok "shot",
    elementsResult := .error "element enumeration failed",
    textResult := .ok "", titleResult := .ok "Example Domain",
    url := "https://example.com" }

/-- Page behaviour on which every `execute_action` evaluate succeeds and no
clickable element is present. -/
def benignExec : ExecEnv :=
  { evalOk := true, evalErr := "", visible := [], extractData := Json.str "data" }

/-- A minimal well-formed model decision of the given kind. -/
def typeObj (t : String) : Json := Json.obj [("type", Json.str t)]

/-- An environment whose model replies follow `script`, whose pages are given
by `pages`, and which is otherwise benign: launch, navigation, finalization
and close all succeed, the planner model is down (exercising its fallback),
and the only telemetry is `gotoEvents`. -/
def scriptEnv (N : Nat) (script : Nat → Json) (pages : Nat → PageHandle)
    (gotoEvents : List PageEvent) : Env :=
  { url := "https://example.com", task := "find the price", max_steps := N,
    launchResult := .ok (), planReply := .error "planner model down",
    gotoResult := .ok (), gotoEvents := gotoEvents,
    page := pages, selReply := fun i => .ok (script i),
    exec := fun _ => benignExec, execEvents := fun _ => [],
    finalPage := benignPage, finalReply := .ok (Json.obj []), finalEvents := [],
    closeResult := .ok (), today := "2026-10-12" }

/-- The Action Selector always answers WAIT (end-to-end scenario 4). -/
def waitEnv (N : Nat) : Env :=
  scriptEnv N (fun _ => typeObj "WAIT") (fun _ => benignPage) []

/-- The Action Selector answers EXTRACT for the first `k` iterations and DONE
from iteration `k` on (end-to-end scenario 1 has `N = 3`, `k = 2`). -/
def doneEnv (N k : Nat) : Env :=
  scriptEnv N (fun i => if i < k then typeObj "EXTRACT" else typeObj "DONE")
    (fun _ => benignPage) []

/-- The Selector always answers WAIT, pages are benign for the first `k`
iterations, and the screenshot of iteration `k` raises: the run fails after
exactly `k` completed iterations. -/
def failEnv (N k : Nat) : Env :=
  scriptEnv N (fun _ => typeObj "WAIT")
    (fun i => if i < k then benignPage else badShotPage) []

/-- One visible clickable element, as the executor's click script sees it. -/
def sampleElement (i : Nat) : ElementInfo :=
  { index := i, tag := "BUTTON", text := "Accept", ty := "button", id := "",
    cls := "accept", visible := true, x := 10, y := 20 }

/-- Page behaviour with exactly two clickable elements. -/
def twoElemExec : ExecEnv :=
  { evalOk := true, evalErr := "", visible := [sampleElement 0, sampleElement 1],
    extractData := Json.str "data" }

/-- A CLICK decision naming element index `idx`. -/
def clickObj (idx : Nat) : Json :=
  Json.obj [("type", Json.str "CLICK"), ("element_index", Json.num (idx : ℚ))]

/-- Budget 2; the model asks to CLICK element 99 (only elements 0 and 1
exist) and then DONE: the out-of-range click does not stop the run. -/
def clickEnv : Env :=
  { scriptEnv 2 (fun i => if i = 0 then clickObj 99 else typeObj "DONE")
      (fun _ => benignPage) [] with
    exec := fun _ => twoElemExec }

/-- A console event of type `error`, as a page would deliver it. -/
def consoleErrEvent : PageEvent := PageEvent.console "error" "boom" 0

/-- The console-log entry the `console` handler appends for
`consoleErrEvent`. -/
def consoleErrEntry : ConsoleLogEntry :=
  { ty := "error", text := "boom".take 200, timestamp := 0 }

/-- Budget 1, immediate DONE, and `K` console-error events during
navigation: the run succeeds while accumulating `K` error entries. -/
def consoleEnv (K : Nat) : Env :=
  scriptEnv 1 (fun _ => typeObj "DONE") (fun _ => benignPage)
    (List.replicate K consoleErrEvent)

/-- A run that has already logged one network request when the first
screenshot raises: the error path discards the telemetry. -/
def errEnv1 : Env :=
  { scriptEnv 1 (fun _ => typeObj "WAIT") (fun _ => badShotPage) [] with
    gotoEvents := [PageEvent.request "https://example.com/a" "GET" "document" 0] }

/-! ## Generic facts about one iteration and about the loop -/

/-- An iteration that raises leaves the step counter and the history as they
were (only the screenshot archive may have grown). -/
lemma iteration_failed_eq {env : Env} {st : LoopState} {e : String} {st' : LoopState}
    (h : iteration env st = .failed e st') :
    st'.step = st.step ∧ st'.history = st.history := by
  unfold iteration at h
  split at h
  · simp only [IterResult.failed.injEq] at h
    obtain ⟨-, h2⟩ := h
    subst h2
    exact ⟨rfl, rfl⟩
  · split at h
    · simp only [IterResult.failed.injEq] at h
      obtain ⟨-, h2⟩ := h
      subst h2
      exact ⟨rfl, rfl⟩
    · split at h
      · simp at h
      · simp at h

/-- A DONE decision breaks out of the loop before anything is appended: step
counter and history are unchanged. -/
lemma iteration_done_eq {env : Env} {st st' : LoopState}
    (h : iteration env st = .done st') :
    st'.step = st.step ∧ st'.history = st.history := by
  unfold iteration at h
  split at h
  · simp at h
  · split at h
    · simp at h
    · split at h
      · simp only [IterResult.done.injEq] at h
        subst h
        exact ⟨rfl, rfl⟩
      · simp at h

/-- A completed iteration appends exactly one history record and then
increments the step counter by exactly one. -/
lemma iteration_next_eq {env : Env} {st st' : LoopState}
    (h : iteration env st = .next st') :
    st'.step = st.step + 1 ∧ st'.history.length = st.history.length + 1 := by
  unfold iteration at h
  split at h
  · simp at h
  · split at h
    · simp at h
    · split at h
      · simp at h
      · simp only [IterResult.next.injEq] at h
        subst h
        exact ⟨rfl, by simp⟩

/-- A predicate on loop states, transported to either exit of `runLoop`. -/
def exitInv (P : LoopState → Prop) : Except (String × LoopState) LoopState → Prop
  | .error (_, st) => P st
  | .ok st => P st

/-- Any state predicate preserved by the three iteration outcomes holds of
the state carried by either loop exit. -/
lemma runLoop_inv (env : Env) (P : LoopState → Prop)
    (hfail : ∀ st e st', iteration env st = .failed e st' → P st → P st')
    (hdone : ∀ st st', iteration env st = .done st' → P st → P st')
    (hnext : ∀ st st', st.step < env.max_steps → iteration env st = .next st' →
      P st → P st') :
    ∀ fuel st, P st → exitInv P (runLoop env fuel st) := by
  intro fuel
  induction fuel with
  | zero => intro st hP; exact hP
  | succ n ih =>
      intro st hP
      unfold runLoop
      split
      · rename_i hlt
        cases hi : iteration env st with
        | failed e st' => exact hfail st e st' hi hP
        | done st' => exact hdone st st' hi hP
        | next st' => exact ih st' (hnext st st' hlt hi hP)
      · exact hP

/-- The loop maintains `history.length = step`. -/
lemma runLoop_hist_inv (env : Env) (fuel : Nat) (st : LoopState)
    (h : st.history.length = st.step) :
    exitInv (fun s => s.history.length = s.step) (runLoop env fuel st) := by
  refine runLoop_inv env _ ?_ ?_ ?_ fuel st h
  · intro st e st' hi hP
    obtain ⟨h1, h2⟩ := iteration_failed_eq hi
    rw [h1, h2]
    exact hP
  · intro st st' hi hP
    obtain ⟨h1, h2⟩ := iteration_done_eq hi
    rw [h1, h2]
    exact hP
  · intro st st' _ hi hP
    obtain ⟨h1, h2⟩ := iteration_next_eq hi
    rw [h1, h2, hP]

/-- The loop maintains `step ≤ max_steps`. -/
lemma runLoop_step_le (env : Env) (fuel : Nat) (st : LoopState)
    (h : st.step ≤ env.max_steps) :
    exitInv (fun s => s.step ≤ env.max_steps) (runLoop env fuel st) := by
  refine runLoop_inv env _ ?_ ?_ ?_ fuel st h
  · intro st e st' hi hP
    rw [(iteration_failed_eq hi).1]
    exact hP
  · intro st st' hi hP
    rw [(iteration_done_eq hi).1]
    exact hP
  · intro st st' hlt hi _
    rw [(iteration_next_eq hi).1]
    omega

/-! ## Evaluation of scripted iterations -/

/-- On a benign page, with a well-formed decision of a kind other than DONE
and no telemetry during execution, an iteration completes and appends the
corresponding record. -/
lemma iteration_benign (env : Env) (st : LoopState) (t : String)
    (hpage : env.page st.step = benignPage)
    (hsel : env.selReply st.step = Except.ok (typeObj t))
    (hev : env.execEvents st.step = [])
    (hne : t ≠ "DONE") :
    iteration env st = .next { st with
      shots := st.shots ++ ["shot"],
      extracted := (execute_action (env.exec st.step) (typeObj t) st.extracted).2,
      history := st.history ++ [{
        step := st.step,
        action := typeObj t,
        result := (execute_action (env.exec st.step) (typeObj t) st.extracted).1,
        network_events := st.logs.network.length,
        console_errors := (st.logs.console.filter (fun l => l.ty == "error")).length }],
      step := st.step + 1 } := by
  unfold iteration
  rw [hpage, hsel, hev]
  simp [capture_state, benignPage, decide_action, pyContains, typeObj,
    pyLookup, pyLookup.lookupField, jsonIsStr, pyContains.jsonIsStr, hne,
    applyEvents]

/-- On a benign page a DONE decision exits the loop, leaving only the new
screenshot behind. -/
lemma iteration_doneAct (env : Env) (st : LoopState)
    (hpage : env.page st.step = benignPage)
    (hsel : env.selReply st.step = Except.ok (typeObj "DONE")) :
    iteration env st = .done { st with shots := st.shots ++ ["shot"] } := by
  unfold iteration
  rw [hpage, hsel]
  simp [capture_state, benignPage, decide_action, pyContains, typeObj,
    pyLookup, pyLookup.lookupField, jsonIsStr, pyContains.jsonIsStr]

/-- On a page whose screenshot raises, the iteration raises with the state
untouched. -/
lemma iteration_badShot (env : Env) (st : LoopState)
    (hpage : env.page st.step = badShotPage) :
    iteration env st = .failed "screenshot failed" st := by
  unfold iteration
  rw [hpage]
  simp [capture_state, badShotPage]

/-- Evaluation of `run` on the normal path, given the outcome of the loop and
of finalization. -/
lemma run_eval_ok (env : Env) (st : LoopState)
    (hL : env.launchResult = .ok ()) (hG : env.gotoResult = .ok ())
    (hloop : runLoop env env.max_steps
      { step := 0, history := [],
        logs := applyEvents { network := [], console := [] } env.gotoEvents,
        extracted := [], shots := [] } = .ok st)
    (shots' : List String) (finalData : Json)
    (hfin : final_extraction env.finalPage st.step st.shots st.extracted
      env.finalReply env.today = (shots', .ok finalData))
    (hC : env.closeResult = .ok ()) :
    run env = .ok env.url env.task (plan_extraction env.task env.planReply)
      finalData st.step st.history
      (pyTail 30 (applyEvents st.logs env.finalEvents).network)
      ((applyEvents st.logs env.finalEvents).console.filter (fun l => l.ty == "error"))
      shots'.length := by
  unfold run
  simp only [hL, hG, hloop, hfin, hC]

/-- Evaluation of `run` when the loop body raises. -/
lemma run_eval_err (env : Env) (e : String) (st : LoopState)
    (hL : env.launchResult = .ok ()) (hG : env.gotoResult = .ok ())
    (hloop : runLoop env env.max_steps
      { step := 0, history := [],
        logs := applyEvents { network := [], console := [] } env.gotoEvents,
        extracted := [], shots := [] } = .error (e, st)) :
    run env = .err env.url env.task e st.step st.history := by
  unfold run
  simp only [hL, hG, hloop]

/-- The history record of one completed WAIT iteration of a telemetry-free
benign run. -/
def waitRec (i : Nat) : ActionRecord :=
  { step := i, action := typeObj "WAIT", result := .waited 2,
    network_events := 0, console_errors := 0 }

/-- The loop state after `i` completed WAIT iterations of a telemetry-free
benign run. -/
def wState (i : Nat) : LoopState :=
  { step := i, history := (List.range i).map waitRec,
    logs := { network := [], console := [] },
    extracted := [], shots := List.replicate i "shot" }

/-- One WAIT iteration advances `wState i` to `wState (i + 1)`. -/
lemma iteration_wait_state (env : Env) (i : Nat)
    (hpage : env.page i = benignPage)
    (hsel : env.selReply i = Except.ok (typeObj "WAIT"))
    (hev : env.execEvents i = [])
    (hexec : env.exec i = benignExec) :
    iteration env (wState i) = .next (wState (i + 1)) := by
  rw [iteration_benign env (wState i) "WAIT" hpage hsel hev (by decide)]
  simp only [wState]
  rw [hexec]
  simp [waitRec, execute_action, typeObj, pyLookup, pyLookup.lookupField,
    jsonIsStr, pyContains.jsonIsStr, benignExec, List.range_succ,
    List.replicate_succ']

/-- The always-WAIT loop runs down its whole budget. -/
lemma runLoop_waitEnv (N : Nat) :
    ∀ j i, i + j = N → runLoop (waitEnv N) j (wState i) = .ok (wState N) := by
  intro j
  induction j with
  | zero =>
      intro i hi
      have h : i = N := by omega
      subst h
      rfl
  | succ n ih =>
      intro i hi
      have hlt : i < N := by omega
      unfold runLoop
      rw [if_pos (show (wState i).step < (waitEnv N).max_steps from hlt)]
      rw [iteration_wait_state (waitEnv N) i rfl rfl rfl rfl]
      exact ih (i + 1) (by omega)

/-- Full evaluation of the always-WAIT run: exactly `N` iterations, normal
exit. -/
lemma run_waitEnv (N : Nat) :
    run (waitEnv N) = RunResult.ok "https://example.com" "find the price"
      (plan_extraction "find the price" (Except.error "planner model down"))
      (Json.obj []) N ((List.range N).map waitRec) [] [] (N + 1) := by
  have h := run_eval_ok (waitEnv N) (wState N) rfl rfl
    (runLoop_waitEnv N N 0 (by omega))
    (List.replicate N "shot" ++ ["shot"]) (Json.obj []) rfl rfl
  rw [h]
  simp [wState, applyEvents, pyTail, waitEnv, scriptEnv]

/-- The history record of one completed EXTRACT iteration of a benign run. -/
def xRec (i : Nat) : ActionRecord :=
  { step := i, action := typeObj "EXTRACT",
    result := .extractedR (reprLen (Json.str "data")),
    network_events := 0, console_errors := 0 }

/-- The loop state after `i` completed EXTRACT iterations of a benign run. -/
def dState (i : Nat) : LoopState :=
  { step := i, history := (List.range i).map xRec,
    logs := { network := [], console := [] },
    extracted := List.replicate i (Json.str "data"),
    shots := List.replicate i "shot" }

/-- One EXTRACT iteration advances `dState i` to `dState (i + 1)`. -/
lemma iteration_extract_state (env : Env) (i : Nat)
    (hpage : env.page i = benignPage)
    (hsel : env.selReply i = Except.ok (typeObj "EXTRACT"))
    (hev : env.execEvents i = [])
    (hexec : env.exec i = benignExec) :
    iteration env (dState i) = .next (dState (i + 1)) := by
  rw [iteration_benign env (dState i) "EXTRACT" hpage hsel hev (by decide)]
  simp only [dState]
  rw [hexec]
  simp [xRec, execute_action, typeObj, pyLookup, pyLookup.lookupField,
    jsonIsStr, pyContains.jsonIsStr, benignExec, List.range_succ,
    List.replicate_succ']

/-- The EXTRACT-then-DONE loop stops after exactly `k` completed
iterations. -/
lemma runLoop_doneEnv (N k : Nat) (hk : k < N) :
    ∀ j i, i + j = k →
      runLoop (doneEnv N k) (N - i) (dState i) =
        .ok { dState k with shots := List.replicate k "shot" ++ ["shot"] } := by
  intro j
  induction j with
  | zero =>
      intro i hi
      have h : i = k := by omega
      rw [h]
      obtain ⟨f, hf⟩ : ∃ f, N - k = f + 1 := ⟨N - k - 1, by omega⟩
      rw [hf]
      unfold runLoop
      rw [if_pos (show (dState k).step < (doneEnv N k).max_steps from hk)]
      rw [iteration_doneAct (doneEnv N k) (dState k) rfl
        (by simp [doneEnv, scriptEnv, dState])]
      simp [dState]
  | succ n ih =>
      intro i hi
      have hik : i < k := by omega
      obtain ⟨f, hf⟩ : ∃ f, N - i = f + 1 := ⟨N - i - 1, by omega⟩
      rw [hf]
      unfold runLoop
      rw [if_pos (show (dState i).step < (doneEnv N k).max_steps from by
        simp only [dState, doneEnv, scriptEnv]; omega)]
      rw [iteration_extract_state (doneEnv N k) i rfl
        (by simp [doneEnv, scriptEnv, hik]) rfl rfl]
      have hfe : f = N - (i + 1) := by omega
      rw [hfe]
      exact ih (i + 1) (by omega)

/-- Full evaluation of the EXTRACT-EXTRACT-…-DONE run. -/
lemma run_doneEnv (N k : Nat) (hk : k < N) :
    run (doneEnv N k) = RunResult.ok "https://example.com" "find the price"
      (plan_extraction "find the price" (Except.error "planner model down"))
      (Json.obj []) k ((List.range k).map xRec) [] [] (k + 2) := by
  have h := run_eval_ok (doneEnv N k)
    { dState k with shots := List.replicate k "shot" ++ ["shot"] } rfl rfl
    (runLoop_doneEnv N k hk k 0 (by omega))
    ((List.replicate k "shot" ++ ["shot"]) ++ ["shot"]) (Json.obj []) rfl rfl
  rw [h]
  simp [dState, applyEvents, pyTail, doneEnv, scriptEnv]

/-- The WAIT loop that hits a failing screenshot at step `k` raises there,
with the first `k` records in place. -/
lemma runLoop_failEnv (N k : Nat) (hk : k < N) :
    ∀ j i, i + j = k →
      runLoop (failEnv N k) (N - i) (wState i) =
        .error ("screenshot failed", wState k) := by
  intro j
  induction j with
  | zero =>
      intro i hi
      have h : i = k := by omega
      rw [h]
      obtain ⟨f, hf⟩ : ∃ f, N - k = f + 1 := ⟨N - k - 1, by omega⟩
      rw [hf]
      unfold runLoop
      rw [if_pos (show (wState k).step < (failEnv N k).max_steps from hk)]
      rw [iteration_badShot (failEnv N k) (wState k)
        (by simp [failEnv, scriptEnv, wState])]
  | succ n ih =>
      intro i hi
      have hik : i < k := by omega
      obtain ⟨f, hf⟩ : ∃ f, N - i = f + 1 := ⟨N - i - 1, by omega⟩
      rw [hf]
      unfold runLoop
      rw [if_pos (show (wState i).step < (failEnv N k).max_steps from by
        simp only [wState, failEnv, scriptEnv]; omega)]
      rw [iteration_wait_state (failEnv N k) i
        (by simp [failEnv, scriptEnv, hik]) rfl rfl rfl]
      have hfe : f = N - (i + 1) := by omega
      rw [hfe]
      exact ih (i + 1) (by omega)

/-- Full evaluation of the run that fails at step `k`: terminal error result
with the `k` accumulated records and no telemetry fields. -/
lemma run_failEnv (N k : Nat) (hk : k < N) :
    run (failEnv N k) = RunResult.err "https://example.com" "find the price"
      "screenshot failed" k ((List.range k).map waitRec) := by
  have h := run_eval_err (failEnv N k) "screenshot failed" (wState k) rfl rfl
    (runLoop_failEnv N k hk k 0 (by omega))
  rw [h]
  simp [wState, failEnv, scriptEnv]

/-- Delivering `K` console-error events appends `K` entries to the console
log and nothing to the network log. -/
lemma applyEvents_consoleErr (K : Nat) : ∀ logs : Logs,
    applyEvents logs (List.replicate K consoleErrEvent) =
      { logs with console := logs.console ++ List.replicate K consoleErrEntry } := by
  induction K with
  | zero => intro logs; simp [applyEvents]
  | succ n ih =>
      intro logs
      rw [List.replicate_succ]
      have hstep : applyEvents logs (consoleErrEvent :: List.replicate n consoleErrEvent) =
          applyEvents (handleEvent logs consoleErrEvent) (List.replicate n consoleErrEvent) := rfl
      rw [hstep, ih]
      simp [handleEvent, consoleErrEvent, consoleErrEntry, netEntriesOf,
        consoleEntriesOf, List.replicate_succ]

/-- Error-typed console entries pass the `console_errors` filter untouched. -/
lemma filter_err_replicate (K : Nat) :
    (List.replicate K consoleErrEntry).filter (fun l => l.ty == "error") =
      List.replicate K consoleErrEntry := by
  induction K with
  | zero => rfl
  | succ n ih =>
      rw [List.replicate_succ]
      simp [List.filter_cons, consoleErrEntry, ih]

/-- Full evaluation of the immediate-DONE run that accumulated `K`
console-error events: the normal result carries all `K` of them. -/
lemma run_consoleEnv (K : Nat) :
    run (consoleEnv K) = RunResult.ok "https://example.com" "find the price"
      (plan_extraction "find the price" (Except.error "planner model down"))
      (Json.obj []) 0 [] [] (List.replicate K consoleErrEntry) 2 := by
  have hlogs : applyEvents { network := [], console := [] } (consoleEnv K).gotoEvents =
      { network := [], console := List.replicate K consoleErrEntry } := by
    have h := applyEvents_consoleErr K { network := [], console := [] }
    simpa [consoleEnv, scriptEnv] using h
  have hloop : runLoop (consoleEnv K) (consoleEnv K).max_steps
      { step := 0, history := [],
        logs := applyEvents { network := [], console := [] } (consoleEnv K).gotoEvents,
        extracted := [], shots := [] } =
      .ok { step := 0, history := [],
            logs := { network := [], console := List.replicate K consoleErrEntry },
            extracted := [], shots := ["shot"] } := by
    rw [hlogs]
    show runLoop (consoleEnv K) 1 _ = _
    unfold runLoop
    rw [if_pos (show (0 : Nat) < (consoleEnv K).max_steps from by norm_num [consoleEnv, scriptEnv])]
    rw [iteration_doneAct (consoleEnv K) _ rfl rfl]
    simp
  have h := run_eval_ok (consoleEnv K)
    { step := 0, history := [],
      logs := { network := [], console := List.replicate K consoleErrEntry },
      extracted := [], shots := ["shot"] } rfl rfl hloop
    (["shot"] ++ ["shot"]) (Json.obj []) rfl rfl
  rw [h]
  simp [applyEvents, pyTail, consoleEnv, scriptEnv, filter_err_replicate]

/-! ## The claims -/

/-- Claim C10: in every RunResult returned by `run` — normal exit, DONE exit,
budget exhaustion, or the error path — `steps_taken` equals the length of
`action_history`: each iteration appends exactly one record immediately
before incrementing the step counter, and no exception point separates the
two. -/
theorem C10_steps_eq_history_length (env : Env) :
    (run env).steps_taken = (run env).action_history.length := by
  have hinv := runLoop_hist_inv env env.max_steps
    { step := 0, history := [],
      logs := applyEvents { network := [], console := [] } env.gotoEvents,
      extracted := [], shots := [] } rfl
  unfold run
  split
  · rfl
  · split
    · rfl
    · split
      · rename_i e st heq
        rw [heq] at hinv
        exact hinv.symm
      · rename_i st heq
        rw [heq] at hinv
        split
        · exact hinv.symm
        · split
          · exact hinv.symm
          · exact hinv.symm

/-- Claim C1: for every environment the loop performs at most `max_steps`
action-iterations, and for every budget `N ≥ 1`, when the Action Selector
always answers WAIT the run performs exactly `N` iterations, then finalizes
normally (`success = true`) with no DONE record in the action history. -/
theorem C1_loop_budget :
    (∀ env : Env, (run env).steps_taken ≤ env.max_steps) ∧
    (∀ N : Nat, 1 ≤ N →
      (run (waitEnv N)).steps_taken = N ∧
      (run (waitEnv N)).action_history.length = N ∧
      (run (waitEnv N)).success = true ∧
      ∀ rec ∈ (run (waitEnv N)).action_history,
        pyLookup rec.action "type" ≠ some (Json.str "DONE")) := by
  constructor
  · intro env
    have hinv := runLoop_step_le env env.max_steps
      { step := 0, history := [],
        logs := applyEvents { network := [], console := [] } env.gotoEvents,
        extracted := [], shots := [] } (Nat.zero_le _)
    unfold run
    split
    · exact Nat.zero_le _
    · split
      · exact Nat.zero_le _
      · split
        · rename_i e st heq
          rw [heq] at hinv
          exact hinv
        · rename_i st heq
          rw [heq] at hinv
          split
          · exact hinv
          · split
            · exact hinv
            · exact hinv
  · intro N hN
    rw [run_waitEnv N]
    refine ⟨rfl, by simp [RunResult.action_history], rfl, ?_⟩
    intro rec hrec
    simp only [RunResult.action_history] at hrec
    rw [List.mem_map] at hrec
    obtain ⟨i, -, rfl⟩ := hrec
    intro hEq
    simp [waitRec, typeObj, pyLookup, pyLookup.lookupField] at hEq

/-- Witness for C1 at the concrete budget `N = 2`. -/
theorem C1_witness :
    (run (waitEnv 2)).steps_taken = 2 ∧
    (run (waitEnv 2)).action_history.length = 2 ∧
    (run (waitEnv 2)).success = true ∧
    ∀ rec ∈ (run (waitEnv 2)).action_history,
      pyLookup rec.action "type" ≠ some (Json.str "DONE") :=
  C1_loop_budget.2 2 (by omega)

/-- Claim C2: when the Selector deterministically answers DONE on iteration
`k < N` the loop performs exactly `k` iterations: `steps_taken = k`, the
history has length `k` with no DONE record, and the run succeeds. -/
theorem C2_done_early (N k : Nat) (hk : k < N) :
    (run (doneEnv N k)).steps_taken = k ∧
    (run (doneEnv N k)).action_history.length = k ∧
    (run (doneEnv N k)).success = true ∧
    ∀ rec ∈ (run (doneEnv N k)).action_history,
      pyLookup rec.action "type" ≠ some (Json.str "DONE") := by
  rw [run_doneEnv N k hk]
  refine ⟨rfl, by simp [RunResult.action_history], rfl, ?_⟩
  intro rec hrec
  simp only [RunResult.action_history] at hrec
  rw [List.mem_map] at hrec
  obtain ⟨i, -, rfl⟩ := hrec
  intro hEq
  simp [xRec, typeObj, pyLookup, pyLookup.lookupField] at hEq

/-- Witness for C2 at the spec's end-to-end scenario 1: budget 3, Selector
answering EXTRACT, EXTRACT, DONE. -/
theorem C2_witness :
    (run (doneEnv 3 2)).steps_taken = 2 ∧
    (run (doneEnv 3 2)).action_history.length = 2 ∧
    (run (doneEnv 3 2)).success = true ∧
    ∀ rec ∈ (run (doneEnv 3 2)).action_history,
      pyLookup rec.action "type" ≠ some (Json.str "DONE") :=
  C2_done_early 3 2 (by omega)

/-- The five valid action kinds named by the spec. -/
def validKinds : List String := ["CLICK", "SCROLL", "EXTRACT", "WAIT", "DONE"]

/-- Counterexample to claim C3: the Selector's validation only checks that a
`type` key is PRESENT, so a parsed model reply whose kind is the invalid
string `"JUMP"` is returned verbatim — `decide_action` does not always
return one of the five valid kinds. -/
theorem C3_counterexample :
    decide_action (Except.ok (Json.obj [("type", Json.str "JUMP")])) =
      Json.obj [("type", Json.str "JUMP")] ∧
    pyLookup (decide_action (Except.ok (Json.obj [("type", Json.str "JUMP")]))) "type" =
      some (Json.str "JUMP") ∧
    validKinds.contains "JUMP" = false :=
  ⟨rfl, rfl, rfl⟩

/-- Claim C3 as amended: `decide_action` never raises; on a model-call error
or unparseable output it returns EXTRACT with confidence 0.3 and an
error-describing reasoning; on a parsed object without a `type` key it
returns EXTRACT with confidence 0.5 and reasoning `"fallback"`; but when the
parsed object has a `type` key it is returned verbatim, so the returned kind
need not be one of the five valid kinds. -/
theorem C3_decide_action_fallbacks :
    (∀ e : String, decide_action (Except.error e) =
      Json.obj [("type", Json.str "EXTRACT"),
        ("reasoning", Json.str ("Error in decision: " ++ e)),
        ("confidence", Json.num (3 / 10))]) ∧
    (∀ fields : List (String × Json), fields.any (fun p => p.1 = "type") = false →
      decide_action (Except.ok (Json.obj fields)) =
        Json.obj [("type", Json.str "EXTRACT"),
          ("reasoning", Json.str "fallback"),
          ("confidence", Json.num (1 / 2))]) ∧
    (∀ fields : List (String × Json), fields.any (fun p => p.1 = "type") = true →
      decide_action (Except.ok (Json.obj fields)) = Json.obj fields) := by
  refine ⟨fun e => rfl, ?_, ?_⟩
  · intro fields h
    simp [decide_action, pyContains, h]
  · intro fields h
    simp [decide_action, pyContains, h]

/-- Witness for C3: the error fallback at a concrete message and the
missing-kind fallback at the empty object. -/
theorem C3_witness :
    decide_action (Except.error "model timeout") =
      Json.obj [("type", Json.str "EXTRACT"),
        ("reasoning", Json.str ("Error in decision: " ++ "model timeout")),
        ("confidence", Json.num (3 / 10))] ∧
    decide_action (Except.ok (Json.obj [])) =
      Json.obj [("type", Json.str "EXTRACT"),
        ("reasoning", Json.str "fallback"),
        ("confidence", Json.num (1 / 2))] :=
  ⟨C3_decide_action_fallbacks.1 "model timeout",
    C3_decide_action_fallbacks.2.1 [] rfl⟩

/-- Counterexample to claim C4: a CLICK on index 99 when only two elements
are visible yields `{'status': 'clicked', 'element': 99}` — the very same
record shape as an in-range click — not a "not found" result; the in-page
script returns `false` (no element existed) but that value is discarded. -/
theorem C4_counterexample :
    execute_action twoElemExec (clickObj 99) [] =
      (ActionResult.clicked (Json.num (99 : ℚ)), []) ∧
    twoElemExec.visible.length = 2 ∧
    clickScript twoElemExec.visible (99 : ℚ) = false :=
  ⟨rfl, rfl, by decide⟩

/-- Claim C4 as amended: an out-of-range CLICK never raises and the loop
proceeds with the step counter incremented, but the returned record is
`{'status': 'clicked', 'element': idx}` regardless of whether an element
existed (the script's `false` is discarded), not a "not found" result. -/
theorem C4_click_out_of_range :
    (∀ (ex : ExecEnv) (idx : Nat) (extracted : List Json), ex.evalOk = true →
      ex.visible.length ≤ idx →
      execute_action ex (clickObj idx) extracted =
        (ActionResult.clicked (Json.num (idx : ℚ)), extracted) ∧
      clickScript ex.visible ((idx : Nat) : ℚ) = false) ∧
    ((run clickEnv).success = true ∧ (run clickEnv).steps_taken = 1 ∧
      (run clickEnv).action_history.length = 1) := by
  constructor
  · intro ex idx extracted hok hrange
    constructor
    · simp [execute_action, clickObj, pyLookup, pyLookup.lookupField, pyGetD,
        jsonIsStr, pyContains.jsonIsStr, hok]
    · have hnum : ((idx : Nat) : ℚ).num = (idx : Int) := Rat.num_natCast idx
      have hden : ((idx : Nat) : ℚ).den = 1 := Rat.den_natCast idx
      simp [clickScript, hnum, hden]
      omega
  · exact ⟨rfl, rfl, rfl⟩

/-- Witness for C4 at the concrete out-of-range index 99 with two visible
elements. -/
theorem C4_witness :
    twoElemExec.evalOk = true ∧ twoElemExec.visible.length ≤ 99 ∧
    (execute_action twoElemExec (clickObj 99) [] =
        (ActionResult.clicked (Json.num ((99 : Nat) : ℚ)), []) ∧
      clickScript twoElemExec.visible ((99 : Nat) : ℚ) = false) :=
  ⟨rfl, by decide, C4_click_out_of_range.1 twoElemExec 99 [] rfl (by decide)⟩

/-- Claim C5: the Planner and the Finalizer are total with respect to model
failure: on an erroring model call `plan_extraction` returns the default
goal derived from the task text (`primary_goal = task`,
`data_fields = ["main content"]`), and `final_extraction` returns the
accumulated fragments verbatim as `primary_data` with
`extraction_method = "fallback"` and confidence 0.5. -/
theorem C5_planner_finalizer_total :
    (∀ task e : String,
      plan_extraction task (Except.error e) =
        Json.obj [("primary_goal", Json.str task),
          ("data_fields", Json.arr [Json.str "main content"]),
          ("success_criteria", Json.str "data extracted"),
          ("expected_obstacles", Json.arr [Json.str "cookie banner"]),
          ("priority_actions",
            Json.arr [Json.str "dismiss popups", Json.str "extract data"])] ∧
      pyLookup (plan_extraction task (Except.error e)) "primary_goal" =
        some (Json.str task) ∧
      pyLookup (plan_extraction task (Except.error e)) "data_fields" =
        some (Json.arr [Json.str "main content"])) ∧
    (∀ (p : PageHandle) (step : Nat) (shots : List String) (extracted : List Json)
        (e today : String) (shots' : List String) (state : PageState),
      capture_state p step shots = (shots', Except.ok state) →
      final_extraction p step shots extracted (Except.error e) today =
        (shots', Except.ok (Json.obj [
          ("primary_data", Json.arr extracted),
          ("metadata", Json.obj [
            ("source_url", Json.str state.url),
            ("extraction_date", Json.str today),
            ("extraction_method", Json.str "fallback")]),
          ("confidence", Json.num (1 / 2)),
          ("error", Json.str e)]))) := by
  constructor
  · intro task e
    exact ⟨rfl, rfl, rfl⟩
  · intro p step shots extracted e today shots' state hcap
    unfold final_extraction
    rw [hcap]

/-- Witness for C5 at a concrete task and a benign final page. -/
theorem C5_witness :
    plan_extraction "find the price" (Except.error "model down") =
      Json.obj [("primary_goal", Json.str "find the price"),
        ("data_fields", Json.arr [Json.str "main content"]),
        ("success_criteria", Json.str "data extracted"),
        ("expected_obstacles", Json.arr [Json.str "cookie banner"]),
        ("priority_actions",
          Json.arr [Json.str "dismiss popups", Json.str "extract data"])] ∧
    final_extraction benignPage 0 [] [Json.str "frag"] (Except.error "model down")
        "2026-10-12" =
      (["shot"], Except.ok (Json.obj [
        ("primary_data", Json.arr [Json.str "frag"]),
        ("metadata", Json.obj [
          ("source_url", Json.str "https://example.com"),
          ("extraction_date", Json.str "2026-10-12"),
          ("extraction_method", Json.str "fallback")]),
        ("confidence", Json.num (1 / 2)),
        ("error", Json.str "model down")])) :=
  ⟨(C5_planner_finalizer_total.1 "find the price" "model down").1,
    C5_planner_finalizer_total.2 benignPage 0 [] [Json.str "frag"] "model down"
      "2026-10-12" ["shot"]
      { screenshot := "shot", elements := [], text := "",
        url := "https://example.com", title := "Example Domain", step := 0 } rfl⟩

/-- Counterexample to claim C6: on a page whose element enumeration raises
(screenshot fine), `capture_state` does NOT return a PageState with an empty
element list — it propagates the error and aborts the capture. -/
theorem C6_counterexample :
    capture_state badElemsPage 0 [] =
      (["shot"], Except.error "element enumeration failed") ∧
    badElemsPage.screenshotResult = Except.ok "shot" :=
  ⟨rfl, rfl⟩

/-- Claim C6 as amended: `capture_state` has no internal error handling, so
EVERY sub-step failure — screenshot or element enumeration alike — propagates
and is fatal to the current step; on full success exactly one screenshot is
appended and the PageState is returned. -/
theorem C6_capture_state_propagates :
    (∀ (p : PageHandle) (step : Nat) (shots : List String) (e : String),
      p.screenshotResult = Except.error e →
      capture_state p step shots = (shots, Except.error e)) ∧
    (∀ (p : PageHandle) (step : Nat) (shots : List String) (s e : String),
      p.screenshotResult = Except.ok s → p.elementsResult = Except.error e →
      capture_state p step shots = (shots ++ [s], Except.error e)) ∧
    (∀ (p : PageHandle) (step : Nat) (shots : List String) (s : String)
        (els : List ElementInfo) (txt ttl : String),
      p.screenshotResult = Except.ok s → p.elementsResult = Except.ok els →
      p.textResult = Except.ok txt → p.titleResult = Except.ok ttl →
      capture_state p step shots = (shots ++ [s],
        Except.ok { screenshot := s, elements := els, text := txt,
                    url := p.url, title := ttl, step := step })) := by
  refine ⟨?_, ?_, ?_⟩
  · intro p step shots e h
    unfold capture_state
    rw [h]
  · intro p step shots s e h1 h2
    unfold capture_state
    rw [h1, h2]
  · intro p step shots s els txt ttl h1 h2 h3 h4
    unfold capture_state
    rw [h1, h2, h3, h4]

/-- Witness for C6 on the concrete pages of this file. -/
theorem C6_witness :
    badElemsPage.screenshotResult = Except.ok "shot" ∧
    badElemsPage.elementsResult = Except.error "element enumeration failed" ∧
    capture_state badElemsPage 0 [] =
      ([] ++ ["shot"], Except.error "element enumeration failed") :=
  ⟨rfl, rfl,
    C6_capture_state_propagates.2.1 badElemsPage 0 [] "shot"
      "element enumeration failed" rfl rfl⟩

/-- Counterexample to claim C7: a run that logged one network request before
its first screenshot raised returns a terminal error result with NO
`network_logs`/`console_errors` keys at all — the accumulated telemetry is
dropped from the error result. -/
theorem C7_counterexample :
    (run errEnv1).success = false ∧
    (run errEnv1).networkField = none ∧
    (run errEnv1).consoleField = none ∧
    (applyEvents { network := [], console := [] } errEnv1.gotoEvents).network.length = 1 :=
  ⟨rfl, rfl, rfl, rfl⟩

/-- Claim C7 as amended: the terminal error result carries the step count and
the full action history accumulated up to the failure point, but no network
or console telemetry — those keys exist only in the normal result. -/
theorem C7_error_result_content :
    (∀ env : Env, (run env).success = false →
      (run env).networkField = none ∧ (run env).consoleField = none) ∧
    (∀ N k : Nat, k < N →
      (run (failEnv N k)).success = false ∧
      (run (failEnv N k)).steps_taken = k ∧
      (run (failEnv N k)).action_history.length = k) := by
  constructor
  · intro env h
    cases hr : run env with
    | ok url task g d s hist n c sc =>
        rw [hr] at h
        simp [RunResult.success] at h
    | err url task e s hist => exact ⟨rfl, rfl⟩
  · intro N k hk
    rw [run_failEnv N k hk]
    exact ⟨rfl, rfl, by simp [RunResult.action_history]⟩

/-- Witness for C7: the error run of `errEnv1`, and the two-step budget run
failing at step 1. -/
theorem C7_witness :
    ((run errEnv1).networkField = none ∧ (run errEnv1).consoleField = none) ∧
    ((run (failEnv 2 1)).success = false ∧
      (run (failEnv 2 1)).steps_taken = 1 ∧
      (run (failEnv 2 1)).action_history.length = 1) :=
  ⟨C7_error_result_content.1 errEnv1 rfl,
    C7_error_result_content.2 2 1 (by omega)⟩

/-- The tail kept by Python's `l[-n:]` has at most `n` elements. -/
lemma pyTail_length_le (n : Nat) (l : List α) : (pyTail n l).length ≤ n := by
  simp [pyTail]
  omega

/-- The `network_logs` key of a run result, when present, is a 30-tail. -/
lemma run_networkField_shape (env : Env) :
    (run env).networkField = none ∨
    ∃ src : List NetLogEntry, (run env).networkField = some (pyTail 30 src) := by
  unfold run
  split
  · exact Or.inl rfl
  · split
    · exact Or.inl rfl
    · split
      · exact Or.inl rfl
      · rename_i st heq
        split
        · exact Or.inl rfl
        · split
          · exact Or.inl rfl
          · exact Or.inr ⟨(applyEvents st.logs env.finalEvents).network, rfl⟩

/-- Counterexample to claim C8: the console side of the normal result is NOT
bounded by any fixed constant — it contains every error-typed console entry
of the whole run. -/
theorem C8_counterexample :
    ¬ ∃ B : Nat, ∀ K : Nat,
      (((run (consoleEnv K)).consoleField).getD []).length ≤ B := by
  rintro ⟨B, hB⟩
  have h := hB (B + 1)
  rw [run_consoleEnv (B + 1)] at h
  simp [RunResult.consoleField] at h

/-- Claim C8 as amended: only the network side of the normal result is
tail-bounded (by the fixed constant 30); the `console_errors` field is the
unbounded list of ALL error-typed console entries, as the `consoleEnv`
family shows. -/
theorem C8_telemetry_bounds :
    (∀ (env : Env) (l : List NetLogEntry),
      (run env).networkField = some l → l.length ≤ 30) ∧
    (∀ K : Nat,
      ((run (consoleEnv K)).consoleField).getD [] = List.replicate K consoleErrEntry) := by
  constructor
  · intro env l h
    rcases run_networkField_shape env with hs | ⟨src, hs⟩
    · rw [hs] at h
      cases h
    · rw [hs] at h
      obtain rfl : pyTail 30 src = l := by
        simpa using h
      exact pyTail_length_le 30 src
  · intro K
    rw [run_consoleEnv K]
    rfl

/-- Witness for C8: the empty-telemetry run has a (trivially) 30-bounded
network field, and the 5-error run returns all 5 console entries. -/
theorem C8_witness :
    (run (consoleEnv 0)).networkField = some [] ∧
    ([] : List NetLogEntry).length ≤ 30 ∧
    ((run (consoleEnv 5)).consoleField).getD [] = List.replicate 5 consoleErrEntry :=
  ⟨rfl, C8_telemetry_bounds.1 (consoleEnv 0) [] rfl, C8_telemetry_bounds.2 5⟩

/-- Claim C9: the telemetry logs are append-only for the whole run: every
page-event handler appends exactly one entry to exactly one log, existing
entries are never removed or mutated, and after any `K` events each log is at
least as long as before. -/
theorem C9_telemetry_append_only :
    ∀ (logs : Logs) (evs : List PageEvent),
      (applyEvents logs evs).network = logs.network ++ (evs.map netEntriesOf).flatten ∧
      (applyEvents logs evs).console = logs.console ++ (evs.map consoleEntriesOf).flatten ∧
      logs.network.length ≤ (applyEvents logs evs).network.length ∧
      logs.console.length ≤ (applyEvents logs evs).console.length ∧
      ∀ ev : PageEvent, (netEntriesOf ev).length + (consoleEntriesOf ev).length = 1 := by
  have key : ∀ (evs : List PageEvent) (logs : Logs),
      (applyEvents logs evs).network = logs.network ++ (evs.map netEntriesOf).flatten ∧
      (applyEvents logs evs).console = logs.console ++ (evs.map consoleEntriesOf).flatten := by
    intro evs
    induction evs with
    | nil => intro logs; simp [applyEvents]
    | cons ev rest ih =>
        intro logs
        have hstep : applyEvents logs (ev :: rest) =
            applyEvents (handleEvent logs ev) rest := rfl
        obtain ⟨h1, h2⟩ := ih (handleEvent logs ev)
        rw [hstep]
        constructor
        · rw [h1]; simp [handleEvent]
        · rw [h2]; simp [handleEvent]
  intro logs evs
  obtain ⟨h1, h2⟩ := key evs logs
  refine ⟨h1, h2, ?_, ?_, ?_⟩
  · rw [h1]; simp
  · rw [h2]; simp
  · intro ev; cases ev <;> rfl

end AgentScrape
